import Mathlib

/-! Shallow embedding of the fixit-assignment scoring services: the lead scorer
(src/services/lead_scorer.py) and the call analyzer (src/services/call_analyzer.py),
together with the configuration defaults (src/config.py). Python floats on the
scoring paths are modelled as exact rationals; Python's round and format use
banker's rounding on these exact values. -/

namespace Fixit

/-- Configuration values from src/config.py (Settings), carrying the fields the
scoring services read, with defaults below. -/
structure Settings where
  ollama_model : String
  hot_threshold : ℚ
  warm_threshold : ℚ
  good_call_threshold : ℚ

/-- Default settings: hot_threshold 0.7, warm_threshold 0.4, good_call_threshold 0.6. -/
def defaultSettings : Settings :=
  { ollama_model := "llama3.2:3b"
    hot_threshold := 0.7
    warm_threshold := 0.4
    good_call_threshold := 0.6 }

/-- Python's round-to-nearest-integer with ties to even (banker's rounding),
taken on exact rationals. -/
def pyRoundInt (q : ℚ) : ℤ :=
  if q - ⌊q⌋ < 1/2 then ⌊q⌋
  else if 1/2 < q - ⌊q⌋ then ⌊q⌋ + 1
  else if ⌊q⌋ % 2 = 0 then ⌊q⌋ else ⌊q⌋ + 1

/-- Python's round(x, 3). -/
def pyRound3 (q : ℚ) : ℚ := (pyRoundInt (q * 1000) : ℚ) / 1000

/-- Lowercased character sequence of a string (Python str.lower; the scorer's
keyword lists are ASCII, where Char.toLower agrees with Python). -/
def lowerChars (s : String) : List Char := s.data.map Char.toLower

/-- Boolean substring test, Python's `needle in hay`. -/
def substrOf (needle hay : List Char) : Bool := decide (needle <:+: hay)

/-- One decimal place, Python format spec .1f on an exact rational. -/
def fmtFixed1 (q : ℚ) : String :=
  let n := pyRoundInt (q * 10)
  toString (n / 10) ++ "." ++ toString (n % 10)

/-- Zero decimal places, Python format spec .0f on an exact rational. -/
def fmtFixed0 (q : ℚ) : String := toString (pyRoundInt q)

/-- Input schema for a single lead (src/api/schemas/lead.py LeadInput). The
status field is a free string here; the schema restricts it to new, contacted,
follow_up. -/
structure LeadInput where
  lead_id : String
  source : String
  budget : ℚ
  city : String
  property_type : String
  last_activity_minutes_ago : ℕ
  past_interactions : ℕ
  notes : String
  status : String
deriving DecidableEq

/-- Output schema for a scored lead (src/api/schemas/lead.py LeadPriorityScore). -/
structure LeadPriorityScore where
  lead_id : String
  priority_score : ℚ
  priority_bucket : String
  reasons : List String
  recency_score : ℚ
  engagement_score : ℚ
  source_score : ℚ
  budget_score : ℚ
  notes_score : ℚ
deriving DecidableEq

/-- LeadScorer.SOURCE_SCORES dict lookup with default 0.5, applied to the
lowercased source. -/
def sourceScoreTable (sl : List Char) : ℚ :=
  if sl = "referral".data then 1.0
  else if sl = "walk-in".data then 0.9
  else if sl = "portal".data then 0.75
  else if sl = "magicbricks".data then 0.75
  else if sl = "99acres".data then 0.75
  else if sl = "housing.com".data then 0.7
  else if sl = "website".data then 0.6
  else if sl = "social_media".data then 0.4
  else 0.5

/-- LeadScorer.URGENCY_KEYWORDS. -/
def URGENCY_KEYWORDS : List String :=
  ["urgent", "asap", "immediately", "priority", "today", "tomorrow",
   "this week", "this weekend", "ready to book", "ready to buy",
   "booking amount ready", "cash ready", "!!", "PRIORITY", "VIP"]

/-- LeadScorer.TIMELINE_KEYWORDS. -/
def TIMELINE_KEYWORDS : List String :=
  ["march", "april", "diwali", "pongal", "next month", "by end of",
   "within", "before", "possession", "shifting", "relocating"]

/-- LeadScorer.POSITIVE_KEYWORDS. -/
def POSITIVE_KEYWORDS : List String :=
  ["interested", "likes", "loved", "genuine", "serious", "confirmed",
   "scheduled", "ready", "approved", "flexible", "cash buyer"]

/-- LeadScorer.NEGATIVE_KEYWORDS. -/
def NEGATIVE_KEYWORDS : List String :=
  ["not serious", "fake", "spam", "wrong number", "window shopping",
   "not picking", "not interested", "unrealistic", "just browsing"]

/-- LeadScorer.calculate_recency_score. -/
def calculate_recency_score (minutes_ago : ℕ) : ℚ × String :=
  if minutes_ago < 30 then (1.0, "Very recent activity (< 30 mins)")
  else if minutes_ago < 60 then (0.85, "Recent activity (< 1 hour)")
  else if minutes_ago < 240 then (0.70, "Activity within 4 hours")
  else if minutes_ago < 1440 then (0.50, "Activity within 24 hours")
  else if minutes_ago < 10080 then (0.25, "Activity within 7 days")
  else (0.10, "Old lead (> 7 days since activity)")

/-- The status_modifier dict.get(status, 0) inside calculate_engagement_score. -/
def status_modifier (status : String) : ℚ :=
  if status = "contacted" then 0.1
  else if status = "follow_up" then 0.15
  else if status = "new" then 0.0
  else 0

/-- LeadScorer.calculate_engagement_score. -/
def calculate_engagement_score (past_interactions : ℕ) (status : String) : ℚ × String :=
  let interaction_score : ℚ := min ((past_interactions : ℚ) / 10) 1.0
  let base_score := interaction_score + status_modifier status
  let final_score := min base_score 1.0
  let reason :=
    if 5 ≤ past_interactions then
      "Highly engaged (" ++ toString past_interactions ++ " interactions)"
    else if 2 ≤ past_interactions then
      "Moderate engagement (" ++ toString past_interactions ++ " interactions)"
    else
      "Low engagement (" ++ toString past_interactions ++ " interactions)"
  (final_score, reason)

/-- LeadScorer.calculate_source_score. -/
def calculate_source_score (source : String) : ℚ × String :=
  let score := sourceScoreTable (lowerChars source)
  let reason :=
    if 0.9 ≤ score then "High-quality source (" ++ source ++ ")"
    else if 0.7 ≤ score then "Good source (" ++ source ++ ")"
    else "Standard source (" ++ source ++ ")"
  (score, reason)

/-- LeadScorer.calculate_budget_score. -/
def calculate_budget_score (budget : ℚ) : ℚ × String :=
  let budget_cr := budget / 10000000
  if 5 ≤ budget_cr then (1.0, "Premium budget (₹" ++ fmtFixed1 budget_cr ++ "Cr)")
  else if 2 ≤ budget_cr then (0.85, "High budget (₹" ++ fmtFixed1 budget_cr ++ "Cr)")
  else if 1 ≤ budget_cr then (0.70, "Good budget (₹" ++ fmtFixed1 budget_cr ++ "Cr)")
  else if 1/2 ≤ budget_cr then
    (0.55, "Moderate budget (₹" ++ fmtFixed0 (budget / 100000) ++ "L)")
  else
    (0.40, "Lower budget segment (₹" ++ fmtFixed0 (budget / 100000) ++ "L)")

/-- LeadScorer.analyze_notes_deterministic. -/
def analyze_notes_deterministic (notes : String) : ℚ × List String :=
  if notes = "" then (0.5, ["No notes available"])
  else
    let notes_lower := lowerChars notes
    let urgency_matches := URGENCY_KEYWORDS.filter (fun kw => substrOf (lowerChars kw) notes_lower)
    let score1 : ℚ := if urgency_matches.isEmpty then 0.5 else 0.5 + 0.2
    let reasons1 : List String :=
      if urgency_matches.isEmpty then []
      else [("Urgency signals detected: " ++ String.intercalate (", ") (urgency_matches.take 2))]
    let timeline_matches := TIMELINE_KEYWORDS.filter (fun kw => substrOf (lowerChars kw) notes_lower)
    let score2 := if timeline_matches.isEmpty then score1 else score1 + 0.15
    let reasons2 :=
      if timeline_matches.isEmpty then reasons1
      else reasons1 ++ [("Timeline mentioned: " ++ timeline_matches.headD (""))]
    let positive_matches := POSITIVE_KEYWORDS.filter (fun kw => substrOf (lowerChars kw) notes_lower)
    let score3 := if positive_matches.isEmpty then score2 else score2 + 0.15
    let reasons3 :=
      if positive_matches.isEmpty then reasons2
      else reasons2 ++ [("Positive signals: " ++ String.intercalate (", ") (positive_matches.take 2))]
    let negative_matches := NEGATIVE_KEYWORDS.filter (fun kw => substrOf (lowerChars kw) notes_lower)
    let score4 := if negative_matches.isEmpty then score3 else score3 - 0.3
    let reasons4 :=
      if negative_matches.isEmpty then reasons3
      else reasons3 ++ [("Negative signals: " ++ String.intercalate (", ") (negative_matches.take 2))]
    let score := max 0.0 (min 1.0 score4)
    let reasons := if reasons4.isEmpty then ["Neutral notes content"] else reasons4
    (score, reasons)

/-- LeadScorer.score_lead with the notes-analysis result passed in as a value:
the notes analyzer is either the deterministic keyword scan (use_llm false, or
fallback) or a result from the external LLM capability. -/
def score_lead_core (s : Settings) (notesResult : ℚ × List String) (lead : LeadInput) :
    LeadPriorityScore :=
  let recencyR := calculate_recency_score lead.last_activity_minutes_ago
  let engagementR := calculate_engagement_score lead.past_interactions lead.status
  let sourceR := calculate_source_score lead.source
  let budgetR := calculate_budget_score lead.budget
  let reasons := [recencyR.2, engagementR.2, sourceR.2, budgetR.2] ++ notesResult.2
  let priority_score :=
    recencyR.1 * 0.25 + engagementR.1 * 0.20 + sourceR.1 * 0.15 +
      budgetR.1 * 0.20 + notesResult.1 * 0.20
  let bucket :=
    if s.hot_threshold ≤ priority_score then "hot"
    else if s.warm_threshold ≤ priority_score then "warm"
    else "cold"
  { lead_id := lead.lead_id
    priority_score := pyRound3 priority_score
    priority_bucket := bucket
    reasons := reasons
    recency_score := pyRound3 recencyR.1
    engagement_score := pyRound3 engagementR.1
    source_score := pyRound3 sourceR.1
    budget_score := pyRound3 budgetR.1
    notes_score := pyRound3 notesResult.1 }

/-- LeadScorer.score_lead with use_llm false: the notes are analyzed by the
deterministic keyword scan. -/
def score_lead_deterministic (s : Settings) (lead : LeadInput) : LeadPriorityScore :=
  score_lead_core s (analyze_notes_deterministic lead.notes) lead

/-- Stable insertion into a list sorted by descending priority score: the
inserted element came earlier in the input, so it goes in front of any element
with an equal score. -/
def insertDesc (x : LeadPriorityScore) : List LeadPriorityScore → List LeadPriorityScore
  | [] => [x]
  | y :: ys => if y.priority_score ≤ x.priority_score then x :: y :: ys else y :: insertDesc x ys

/-- Stable sort by descending priority score. Python's list.sort with key
priority_score and reverse set is a stable descending sort (Timsort); any stable
descending sort computes the same list, so insertion sort is used here. -/
def sortByScoreDesc : List LeadPriorityScore → List LeadPriorityScore
  | [] => []
  | x :: xs => insertDesc x (sortByScoreDesc xs)

/-- LeadScorer.prioritize_leads with use_llm false: score each lead, sort by
descending priority score, truncate to max_results. -/
def prioritize_leads_deterministic (s : Settings) (leads : List LeadInput)
    (max_results : ℕ) : List LeadPriorityScore :=
  (sortByScoreDesc (leads.map (score_lead_deterministic s))).take max_results

/-- Request schema (src/api/schemas/call.py CallEvalRequest). -/
structure CallEvalRequest where
  call_id : String
  lead_id : Option String
  transcript : String
  duration_seconds : Option ℕ
deriving DecidableEq

/-- The four dimension labels (src/api/schemas/call.py CallLabels). -/
structure CallLabels where
  rapport_building : ℚ
  need_discovery : ℚ
  closing_attempt : ℚ
  compliance_risk : ℚ
deriving DecidableEq

/-- Model metadata (src/api/schemas/call.py ModelMetadata). -/
structure ModelMetadata where
  model_name : String
  latency_ms : ℕ
  input_tokens : Option ℕ
  output_tokens : Option ℕ
deriving DecidableEq

/-- Response schema (src/api/schemas/call.py CallEvalResponse). -/
structure CallEvalResponse where
  call_id : String
  quality_score : ℚ
  labels : CallLabels
  summary : String
  next_actions : List String
  model_metadata : ModelMetadata
  is_good_call : Bool
  key_points : List String
deriving DecidableEq

/-- The workflow state (call_analyzer.py CallAnalysisState). The errors field is
declared with the additive reducer, so node returns append to it. -/
structure CallAnalysisState where
  call_id : String
  lead_id : Option String
  transcript : String
  duration_seconds : Option ℕ
  is_parsed : Bool
  parse_error : Option String
  rapport_building : ℚ
  need_discovery : ℚ
  closing_attempt : ℚ
  compliance_risk : ℚ
  summary : String
  key_points : List String
  next_actions : List String
  quality_score : ℚ
  is_good_call : Bool
  model_name : String
  latency_ms : ℕ
  input_tokens : Option ℕ
  output_tokens : Option ℕ
  errors : List String
deriving DecidableEq

/-- A successful result of the external dimension-analysis capability
(llm_client.analyze_call_transcript), as consumed by _analyze_dimensions. -/
structure LLMOutput where
  rapport_building : ℚ
  need_discovery : ℚ
  closing_attempt : ℚ
  compliance_risk : ℚ
  summary : String
  key_points : List String
  next_actions : List String
  model : String
  latency_ms : ℕ
deriving DecidableEq

/-- Python str.strip: drop whitespace from both ends. -/
def pyStrip (s : String) : String :=
  ⟨((s.data.dropWhile Char.isWhitespace).reverse.dropWhile Char.isWhitespace).reverse⟩

/-- The dialogue-marker scan in _parse_transcript: any of the markers occurs as
a substring of the cleaned transcript. -/
def hasDialogue (cleaned : String) : Bool :=
  [":", "Agent:", "Customer:", "A:", "C:"].any (fun marker => substrOf marker.data cleaned.data)

/-- CallAnalyzer._parse_transcript. The dialogue-marker check only produces a
log warning, so it does not appear in the returned state. -/
def parse_transcript (st : CallAnalysisState) : CallAnalysisState :=
  if st.transcript = "" ∨ (pyStrip st.transcript).length < 20 then
    { st with
      is_parsed := false
      parse_error := some ("Transcript too short or empty")
      errors := st.errors ++ ["Transcript validation failed: too short"] }
  else
    { st with
      transcript := pyStrip st.transcript
      is_parsed := true
      parse_error := none }

/-- CallAnalyzer._should_continue_after_parse. -/
def should_continue_after_parse (st : CallAnalysisState) : Bool :=
  st.is_parsed

/-- CallAnalyzer._analyze_dimensions, with the external capability's outcome
passed in as an Except value and the fallback's measured wall-clock duration as
elapsedMs. -/
def analyze_dimensions (llm : Except String LLMOutput) (elapsedMs : ℕ)
    (st : CallAnalysisState) : CallAnalysisState :=
  match llm with
  | Except.ok r =>
    { st with
      rapport_building := r.rapport_building
      need_discovery := r.need_discovery
      closing_attempt := r.closing_attempt
      compliance_risk := r.compliance_risk
      summary := r.summary
      key_points := r.key_points
      next_actions := r.next_actions
      model_name := r.model
      latency_ms := r.latency_ms }
  | Except.error e =>
    { st with
      rapport_building := 0.5
      need_discovery := 0.5
      closing_attempt := 0.5
      compliance_risk := 0.5
      summary := "Analysis failed - using default scores"
      key_points := []
      next_actions := ["Manual review required"]
      model_name := "fallback"
      latency_ms := elapsedMs
      errors := st.errors ++ [("LLM analysis failed: " ++ e)] }

/-- CallAnalyzer._calculate_score. -/
def calculate_score (s : Settings) (st : CallAnalysisState) : CallAnalysisState :=
  let quality_score :=
    pyRound3 (st.rapport_building * 0.25 + st.need_discovery * 0.30 +
      st.closing_attempt * 0.30 + (1 - st.compliance_risk) * 0.15)
  { st with
    quality_score := quality_score
    is_good_call := decide (s.good_call_threshold ≤ quality_score) }

/-- CallAnalyzer._generate_output: fill falsy summary, next_actions and
key_points with defaults. -/
def generate_output (st : CallAnalysisState) : CallAnalysisState :=
  let st1 := if st.summary = "" then { st with summary := "Call analysis completed." } else st
  let st2 := if st1.next_actions = [] then { st1 with next_actions := [] } else st1
  if st2.key_points = [] then { st2 with key_points := [] } else st2

/-- The four nodes of the LangGraph workflow built in _build_graph. -/
inductive Stage where
  | parseTranscript
  | analyzeDimensions
  | calculateScore
  | generateOutput
deriving DecidableEq

/-- One run of the compiled workflow: the conditional edge after
parse_transcript routes to analyze_dimensions on success and straight to
generate_output on failure; afterwards the edges are linear and end at END.
Returns the sequence of executed stages together with the final state. -/
def runPipeline (s : Settings) (llm : Except String LLMOutput) (elapsedMs : ℕ)
    (st0 : CallAnalysisState) : List Stage × CallAnalysisState :=
  let st1 := parse_transcript st0
  if should_continue_after_parse st1 then
    let st2 := analyze_dimensions llm elapsedMs st1
    let st3 := calculate_score s st2
    let st4 := generate_output st3
    ([Stage.parseTranscript, Stage.analyzeDimensions, Stage.calculateScore,
      Stage.generateOutput], st4)
  else
    ([Stage.parseTranscript, Stage.generateOutput], generate_output st1)

/-- The initial_state dict built at the top of CallAnalyzer.analyze. -/
def initialState (s : Settings) (req : CallEvalRequest) : CallAnalysisState :=
  { call_id := req.call_id
    lead_id := req.lead_id
    transcript := req.transcript
    duration_seconds := req.duration_seconds
    is_parsed := false
    parse_error := none
    rapport_building := 0.0
    need_discovery := 0.0
    closing_attempt := 0.0
    compliance_risk := 0.0
    summary := ""
    key_points := []
    next_actions := []
    quality_score := 0.0
    is_good_call := false
    model_name := s.ollama_model
    latency_ms := 0
    input_tokens := none
    output_tokens := none
    errors := [] }

/-- CallAnalyzer.analyze: build the initial state, run the workflow, and read
the response off the final state. Also returns the stage trace of the run. -/
def analyzeCall (s : Settings) (llm : Except String LLMOutput) (elapsedMs : ℕ)
    (req : CallEvalRequest) : List Stage × CallEvalResponse :=
  let r := runPipeline s llm elapsedMs (initialState s req)
  let fs := r.2
  (r.1,
   { call_id := fs.call_id
     quality_score := fs.quality_score
     labels :=
       { rapport_building := fs.rapport_building
         need_discovery := fs.need_discovery
         closing_attempt := fs.closing_attempt
         compliance_risk := fs.compliance_risk }
     summary := fs.summary
     next_actions := fs.next_actions
     model_metadata :=
       { model_name := fs.model_name
         latency_ms := fs.latency_ms
         input_tokens := fs.input_tokens
         output_tokens := fs.output_tokens }
     is_good_call := fs.is_good_call
     key_points := fs.key_points })

/-- A request whose transcript is shorter than 20 characters. -/
def reqShort : CallEvalRequest :=
  { call_id := "c1"
    lead_id := none
    transcript := "short"
    duration_seconds := none }

/-- A pipeline state whose four dimension scores yield quality exactly 0.6. -/
def csStateEx : CallAnalysisState :=
  { call_id := "c"
    lead_id := none
    transcript := "t"
    duration_seconds := none
    is_parsed := true
    parse_error := none
    rapport_building := 0.6
    need_discovery := 0.6
    closing_attempt := 0.6
    compliance_risk := 0.4
    summary := ""
    key_points := []
    next_actions := []
    quality_score := 0
    is_good_call := false
    model_name := "m"
    latency_ms := 0
    input_tokens := none
    output_tokens := none
    errors := [] }

/-- A state whose transcript is 25 whitespace characters: length 25 and no
dialogue marker, yet the trimmed length is 0. -/
def spaces25St : CallAnalysisState :=
  { csStateEx with transcript := "                         " }

/-- A state whose transcript has exactly 10 characters. -/
def st10 : CallAnalysisState :=
  { csStateEx with transcript := "abcdefghij" }

/-- A state whose transcript has 25 non-whitespace characters and no dialogue
marker. -/
def st25 : CallAnalysisState :=
  { csStateEx with transcript := "abcdefghijklmnopqrstuvwxy" }

/-- A concrete lead matching the hot profile of the ranking property. -/
def leadA : LeadInput :=
  { lead_id := "A"
    source := "referral"
    budget := 15000000
    city := "Chennai"
    property_type := "3BHK"
    last_activity_minutes_ago := 15
    past_interactions := 5
    notes := "ready to book next week"
    status := "contacted" }

/-- A concrete lead matching the cold profile of the ranking property. -/
def leadB : LeadInput :=
  { lead_id := "B"
    source := "social_media"
    budget := 2500000
    city := "Chennai"
    property_type := "2BHK"
    last_activity_minutes_ago := 15000
    past_interactions := 0
    notes := "not interested, wrong number"
    status := "new" }

/-! Helper lemmas about banker's rounding. -/

lemma le_pyRoundInt_cast (q : ℚ) : q - 1/2 ≤ (pyRoundInt q : ℚ) := by
  unfold pyRoundInt
  have hf : ((⌊q⌋ : ℤ) : ℚ) ≤ q := Int.floor_le q
  have hf2 : q < ((⌊q⌋ : ℤ) : ℚ) + 1 := Int.lt_floor_add_one q
  split_ifs with h1 h2 h3 <;> push_cast <;> linarith

lemma pyRoundInt_cast_le (q : ℚ) : (pyRoundInt q : ℚ) ≤ q + 1/2 := by
  unfold pyRoundInt
  have hf : ((⌊q⌋ : ℤ) : ℚ) ≤ q := Int.floor_le q
  have hf2 : q < ((⌊q⌋ : ℤ) : ℚ) + 1 := Int.lt_floor_add_one q
  split_ifs with h1 h2 h3 <;> push_cast <;> linarith

lemma le_pyRoundInt_of_le {q : ℚ} {n : ℤ} (h : (n : ℚ) ≤ q) : n ≤ pyRoundInt q := by
  unfold pyRoundInt
  have hfl : n ≤ ⌊q⌋ := Int.le_floor.2 h
  split_ifs <;> omega

lemma pyRoundInt_le_of_le {q : ℚ} {n : ℤ} (h : q ≤ (n : ℚ)) : pyRoundInt q ≤ n := by
  unfold pyRoundInt
  have hfl : ⌊q⌋ ≤ n := by
    calc ⌊q⌋ ≤ ⌊(n : ℚ)⌋ := Int.floor_le_floor h
    _ = n := Int.floor_intCast n
  have hf : ((⌊q⌋ : ℤ) : ℚ) ≤ q := Int.floor_le q
  split_ifs with h1 h2 h3
  · exact hfl
  · have : ((⌊q⌋ : ℤ) : ℚ) < (n : ℚ) - 1/2 := by linarith
    have : ⌊q⌋ < n := by
      have h2n : ((⌊q⌋ : ℤ) : ℚ) < (n : ℚ) := by linarith
      exact_mod_cast h2n
    omega
  · exact hfl
  · have heq : q - ((⌊q⌋ : ℤ) : ℚ) = 1/2 := le_antisymm (not_lt.1 h2) (not_lt.1 h1)
    have h2n : ((⌊q⌋ : ℤ) : ℚ) < (n : ℚ) := by linarith
    have : ⌊q⌋ < n := by exact_mod_cast h2n
    omega

lemma pyRound3_nonneg {q : ℚ} (h : 0 ≤ q) : 0 ≤ pyRound3 q := by
  unfold pyRound3
  have h0 : (0 : ℤ) ≤ pyRoundInt (q * 1000) := by
    refine le_pyRoundInt_of_le ?_
    push_cast
    linarith
  have h1 : (0 : ℚ) ≤ (pyRoundInt (q * 1000) : ℚ) := by exact_mod_cast h0
  exact div_nonneg h1 (by norm_num)

lemma pyRound3_le_one {q : ℚ} (h : q ≤ 1) : pyRound3 q ≤ 1 := by
  unfold pyRound3
  have h0 : pyRoundInt (q * 1000) ≤ (1000 : ℤ) := by
    refine pyRoundInt_le_of_le ?_
    push_cast
    linarith
  rw [div_le_one (by norm_num : (0:ℚ) < 1000)]
  exact_mod_cast h0

lemma le_pyRound3 (q : ℚ) : q - 1/2000 ≤ pyRound3 q := by
  unfold pyRound3
  rw [le_div_iff₀ (by norm_num : (0:ℚ) < 1000)]
  have := le_pyRoundInt_cast (q * 1000)
  linarith

lemma pyRound3_le (q : ℚ) : pyRound3 q ≤ q + 1/2000 := by
  unfold pyRound3
  rw [div_le_iff₀ (by norm_num : (0:ℚ) < 1000)]
  have := pyRoundInt_cast_le (q * 1000)
  linarith

/-! Helper lemmas about the stable descending sort. -/

lemma filter_isEmpty_eq_not_any {α : Type} (p : α → Bool) (l : List α) :
    (l.filter p).isEmpty = !(l.any p) := by
  induction l with
  | nil => rfl
  | cons a t ih =>
    simp only [List.filter_cons, List.any_cons]
    cases h : p a <;> simp [h, ih]

lemma insertDesc_perm (x : LeadPriorityScore) (l : List LeadPriorityScore) :
    List.Perm (insertDesc x l) (x :: l) := by
  induction l with
  | nil => exact List.Perm.refl _
  | cons y ys ih =>
    rw [insertDesc]
    split_ifs with h
    · exact List.Perm.refl _
    · exact List.Perm.trans (List.Perm.cons y ih) (List.Perm.swap x y ys)

lemma mem_insertDesc {x a : LeadPriorityScore} {l : List LeadPriorityScore} :
    a ∈ insertDesc x l ↔ a = x ∨ a ∈ l := by
  rw [(insertDesc_perm x l).mem_iff, List.mem_cons]

lemma pairwise_insertDesc {x : LeadPriorityScore} {l : List LeadPriorityScore}
    (hl : l.Pairwise (fun a b => b.priority_score ≤ a.priority_score)) :
    (insertDesc x l).Pairwise (fun a b => b.priority_score ≤ a.priority_score) := by
  induction l with
  | nil => simp [insertDesc]
  | cons y ys ih =>
    rw [insertDesc]
    rcases List.pairwise_cons.1 hl with ⟨hy, hys⟩
    split_ifs with h
    · refine List.pairwise_cons.2 ⟨?_, hl⟩
      intro b hb
      rcases List.mem_cons.1 hb with rfl | hb
      · exact h
      · exact le_trans (hy b hb) h
    · refine List.pairwise_cons.2 ⟨?_, ih hys⟩
      intro b hb
      rcases mem_insertDesc.1 hb with rfl | hb
      · exact (lt_of_not_le h).le
      · exact hy b hb

lemma sortByScoreDesc_perm (l : List LeadPriorityScore) :
    List.Perm (sortByScoreDesc l) l := by
  induction l with
  | nil => exact List.Perm.refl _
  | cons x xs ih =>
    exact List.Perm.trans (insertDesc_perm x (sortByScoreDesc xs)) (List.Perm.cons x ih)

lemma sortByScoreDesc_pairwise (l : List LeadPriorityScore) :
    (sortByScoreDesc l).Pairwise (fun a b => b.priority_score ≤ a.priority_score) := by
  induction l with
  | nil => simp [sortByScoreDesc]
  | cons x xs ih => exact pairwise_insertDesc ih

lemma filter_insertDesc (c : ℚ) (x : LeadPriorityScore) (l : List LeadPriorityScore) :
    (insertDesc x l).filter (fun a => decide (a.priority_score = c)) =
      if x.priority_score = c then
        x :: l.filter (fun a => decide (a.priority_score = c))
      else l.filter (fun a => decide (a.priority_score = c)) := by
  induction l with
  | nil =>
    rw [insertDesc]
    by_cases hx : x.priority_score = c <;> simp [hx]
  | cons y ys ih =>
    rw [insertDesc]
    by_cases h : y.priority_score ≤ x.priority_score
    · rw [if_pos h]
      by_cases hx : x.priority_score = c <;> simp [List.filter_cons, hx]
    · rw [if_neg h]
      by_cases hx : x.priority_score = c
      · have hyc : ¬ y.priority_score = c := fun e => h (le_of_eq (e.trans hx.symm))
        simp [List.filter_cons, hyc, ih, hx]
      · by_cases hy : y.priority_score = c <;> simp [List.filter_cons, hy, ih, hx]

lemma filter_sortByScoreDesc (c : ℚ) (l : List LeadPriorityScore) :
    (sortByScoreDesc l).filter (fun a => decide (a.priority_score = c)) =
      l.filter (fun a => decide (a.priority_score = c)) := by
  induction l with
  | nil => rfl
  | cons x xs ih =>
    rw [sortByScoreDesc, filter_insertDesc, List.filter_cons]
    by_cases hx : x.priority_score = c <;> simp [hx, ih]

/-! Characterization of the deterministic notes analysis. -/

/-- True when some keyword of the category occurs in the lowercased notes. -/
def categoryHit (notes : String) (kws : List String) : Bool :=
  kws.any (fun kw => substrOf (lowerChars kw) (lowerChars notes))

/-- The notes score before clamping, as a function of which of the four keyword
categories matched: one fixed adjustment per matching category. -/
def rawNotesScore (notes : String) : ℚ :=
  0.5 + (if categoryHit notes URGENCY_KEYWORDS then 0.2 else 0)
      + (if categoryHit notes TIMELINE_KEYWORDS then 0.15 else 0)
      + (if categoryHit notes POSITIVE_KEYWORDS then 0.15 else 0)
      - (if categoryHit notes NEGATIVE_KEYWORDS then 0.3 else 0)

lemma analyze_notes_score_eq (notes : String) (h : ¬ notes = "") :
    (analyze_notes_deterministic notes).1 = max 0.0 (min 1.0 (rawNotesScore notes)) := by
  have hu := filter_isEmpty_eq_not_any
    (fun kw => substrOf (lowerChars kw) (lowerChars notes)) URGENCY_KEYWORDS
  have ht := filter_isEmpty_eq_not_any
    (fun kw => substrOf (lowerChars kw) (lowerChars notes)) TIMELINE_KEYWORDS
  have hp := filter_isEmpty_eq_not_any
    (fun kw => substrOf (lowerChars kw) (lowerChars notes)) POSITIVE_KEYWORDS
  have hn := filter_isEmpty_eq_not_any
    (fun kw => substrOf (lowerChars kw) (lowerChars notes)) NEGATIVE_KEYWORDS
  rw [analyze_notes_deterministic, if_neg h, rawNotesScore]
  simp only [categoryHit, hu, ht, hp, hn]
  rcases Bool.eq_false_or_eq_true
      (URGENCY_KEYWORDS.any (fun kw => substrOf (lowerChars kw) (lowerChars notes))) with hU | hU <;>
    rcases Bool.eq_false_or_eq_true
        (TIMELINE_KEYWORDS.any (fun kw => substrOf (lowerChars kw) (lowerChars notes))) with hT | hT <;>
      rcases Bool.eq_false_or_eq_true
          (POSITIVE_KEYWORDS.any (fun kw => substrOf (lowerChars kw) (lowerChars notes))) with hP | hP <;>
        rcases Bool.eq_false_or_eq_true
            (NEGATIVE_KEYWORDS.any (fun kw => substrOf (lowerChars kw) (lowerChars notes))) with hN | hN <;>
          simp only [hU, hT, hP, hN] <;> norm_num

lemma rawNotesScore_cases (notes : String) :
    rawNotesScore notes =
      0.5 + (if categoryHit notes URGENCY_KEYWORDS then 0.2 else 0)
          + (if categoryHit notes TIMELINE_KEYWORDS then 0.15 else 0)
          + (if categoryHit notes POSITIVE_KEYWORDS then 0.15 else 0)
          - (if categoryHit notes NEGATIVE_KEYWORDS then 0.3 else 0) := rfl

lemma rawNotesScore_bounds (notes : String) :
    1/5 ≤ rawNotesScore notes ∧ rawNotesScore notes ≤ 1 := by
  rw [rawNotesScore]
  rcases Bool.eq_false_or_eq_true (categoryHit notes URGENCY_KEYWORDS) with hU | hU <;>
    rcases Bool.eq_false_or_eq_true (categoryHit notes TIMELINE_KEYWORDS) with hT | hT <;>
      rcases Bool.eq_false_or_eq_true (categoryHit notes POSITIVE_KEYWORDS) with hP | hP <;>
        rcases Bool.eq_false_or_eq_true (categoryHit notes NEGATIVE_KEYWORDS) with hN | hN <;>
          simp only [hU, hT, hP, hN] <;> norm_num

lemma notes_score_bounds (notes : String) :
    1/5 ≤ (analyze_notes_deterministic notes).1 ∧ (analyze_notes_deterministic notes).1 ≤ 1 := by
  by_cases h : notes = ""
  · rw [h, analyze_notes_deterministic, if_pos rfl]
    norm_num
  · rw [analyze_notes_score_eq notes h]
    rcases rawNotesScore_bounds notes with ⟨h1, h2⟩
    constructor
    · have hmin : (1/5 : ℚ) ≤ min 1.0 (rawNotesScore notes) := le_min (by norm_num) h1
      exact le_trans hmin (le_max_right _ _)
    · exact max_le (by norm_num) (le_trans (min_le_left _ _) (by norm_num))

/-! Bounds for the five sub-scores. -/

lemma recency_score_bounds (m : ℕ) :
    0 ≤ (calculate_recency_score m).1 ∧ (calculate_recency_score m).1 ≤ 1 := by
  rw [calculate_recency_score]
  split_ifs <;> norm_num

lemma status_modifier_bounds (st : String) :
    0 ≤ status_modifier st ∧ status_modifier st ≤ 3/20 := by
  rw [status_modifier]
  split_ifs <;> norm_num

lemma engagement_score_bounds (p : ℕ) (st : String) :
    0 ≤ (calculate_engagement_score p st).1 ∧ (calculate_engagement_score p st).1 ≤ 1 := by
  rcases status_modifier_bounds st with ⟨h0, h1⟩
  rw [calculate_engagement_score]
  dsimp only
  have hp : (0:ℚ) ≤ (p:ℚ)/10 := by positivity
  have hi : (0:ℚ) ≤ min ((p:ℚ)/10) 1.0 := le_min hp (by norm_num)
  constructor
  · exact le_min (by linarith) (by norm_num)
  · exact le_trans (min_le_right _ _) (by norm_num)

lemma sourceScoreTable_bounds (sl : List Char) :
    0 ≤ sourceScoreTable sl ∧ sourceScoreTable sl ≤ 1 := by
  rw [sourceScoreTable]
  split_ifs <;> norm_num

lemma source_score_bounds (src : String) :
    0 ≤ (calculate_source_score src).1 ∧ (calculate_source_score src).1 ≤ 1 := by
  rw [calculate_source_score]
  dsimp only
  exact sourceScoreTable_bounds (lowerChars src)

lemma budget_score_bounds (b : ℚ) :
    0 ≤ (calculate_budget_score b).1 ∧ (calculate_budget_score b).1 ≤ 1 := by
  rw [calculate_budget_score]
  split_ifs <;> norm_num

/-! Concrete sub-score evaluations used for the two-lead ranking property. -/

lemma recency_at_15 : (calculate_recency_score 15).1 = 1.0 := by
  rw [calculate_recency_score]
  norm_num

lemma recency_at_15000 : (calculate_recency_score 15000).1 = 0.10 := by
  rw [calculate_recency_score]
  norm_num

lemma engagement_at_5 (st : String) :
    1/2 ≤ (calculate_engagement_score 5 st).1 ∧ (calculate_engagement_score 5 st).1 ≤ 13/20 := by
  rcases status_modifier_bounds st with ⟨h0, h1⟩
  rw [calculate_engagement_score]
  dsimp only
  have e : min (((5:ℕ):ℚ)/10) 1.0 = 1/2 := by
    push_cast
    norm_num [min_def]
  rw [e]
  have hb : (1/2 : ℚ) + status_modifier st ≤ 1.0 := by
    norm_num
    linarith
  rw [min_eq_left hb]
  constructor <;> linarith

lemma engagement_at_0 (st : String) :
    (calculate_engagement_score 0 st).1 ≤ 3/20 := by
  rcases status_modifier_bounds st with ⟨h0, h1⟩
  rw [calculate_engagement_score]
  dsimp only
  have e : min (((0:ℕ):ℚ)/10) 1.0 = 0 := by
    push_cast
    norm_num [min_def]
  rw [e]
  exact le_trans (min_le_left _ _) (by linarith)

lemma source_referral : (calculate_source_score "referral").1 = 1.0 := by
  rw [calculate_source_score]
  dsimp only
  rw [show lowerChars "referral" = "referral".data from by decide]
  rw [sourceScoreTable, if_pos rfl]

lemma source_social_media : (calculate_source_score "social_media").1 = 0.4 := by
  rw [calculate_source_score]
  dsimp only
  rw [show lowerChars "social_media" = "social_media".data from by decide]
  rw [sourceScoreTable]
  rw [if_neg (by decide), if_neg (by decide), if_neg (by decide), if_neg (by decide),
      if_neg (by decide), if_neg (by decide), if_neg (by decide), if_pos rfl]

lemma budget_at_15000000 : (calculate_budget_score 15000000).1 = 0.70 := by
  rw [calculate_budget_score]
  norm_num

lemma budget_at_2500000 : (calculate_budget_score 2500000).1 = 0.40 := by
  rw [calculate_budget_score]
  norm_num

lemma categoryHit_of_infix {kw : String} {kws : List String} {notes : String}
    (hmem : kw ∈ kws) (hlow : lowerChars kw = kw.data)
    (hinf : kw.data <:+: notes.data) : categoryHit notes kws = true := by
  rw [categoryHit, List.any_eq_true]
  refine ⟨kw, hmem, ?_⟩
  simp only [substrOf, decide_eq_true_eq]
  have h2 : kw.data.map Char.toLower <:+: notes.data.map Char.toLower :=
    List.IsInfix.map Char.toLower hinf
  rw [lowerChars] at hlow
  rw [lowerChars, lowerChars, hlow]
  rw [hlow] at h2
  exact h2

lemma notesA_bound {notes : String} (h : "ready to book".data <:+: notes.data) :
    11/20 ≤ (analyze_notes_deterministic notes).1 := by
  have hne : ¬ notes = "" := by
    intro e
    rw [e] at h
    exact absurd h (by decide)
  have hu : categoryHit notes URGENCY_KEYWORDS = true :=
    categoryHit_of_infix (by decide) (by decide) h
  have hp : categoryHit notes POSITIVE_KEYWORDS = true :=
    categoryHit_of_infix (by decide) (by decide)
      (List.IsInfix.trans (by decide : "ready".data <:+: "ready to book".data) h)
  rw [analyze_notes_score_eq notes hne, rawNotesScore]
  simp only [hu, hp]
  rcases Bool.eq_false_or_eq_true (categoryHit notes TIMELINE_KEYWORDS) with hT | hT <;>
    rcases Bool.eq_false_or_eq_true (categoryHit notes NEGATIVE_KEYWORDS) with hN | hN <;>
      simp only [hT, hN] <;> norm_num [min_def, max_def]

lemma notesB_bound {notes : String} (h : "not interested, wrong number".data <:+: notes.data) :
    (analyze_notes_deterministic notes).1 ≤ 7/10 := by
  have hne : ¬ notes = "" := by
    intro e
    rw [e] at h
    exact absurd h (by decide)
  have hp : categoryHit notes POSITIVE_KEYWORDS = true :=
    categoryHit_of_infix (by decide) (by decide)
      (List.IsInfix.trans
        (by decide : "interested".data <:+: "not interested, wrong number".data) h)
  have hn : categoryHit notes NEGATIVE_KEYWORDS = true :=
    categoryHit_of_infix (by decide) (by decide)
      (List.IsInfix.trans
        (by decide : "wrong number".data <:+: "not interested, wrong number".data) h)
  rw [analyze_notes_score_eq notes hne, rawNotesScore]
  simp only [hp, hn]
  rcases Bool.eq_false_or_eq_true (categoryHit notes URGENCY_KEYWORDS) with hU | hU <;>
    rcases Bool.eq_false_or_eq_true (categoryHit notes TIMELINE_KEYWORDS) with hT | hT <;>
      simp only [hU, hT] <;> norm_num [min_def, max_def]

/-! The weighted combination in score_lead. -/

lemma weighted_sum_bounds {r e src b n : ℚ}
    (hr : 0 ≤ r ∧ r ≤ 1) (he : 0 ≤ e ∧ e ≤ 1) (hs : 0 ≤ src ∧ src ≤ 1)
    (hb : 0 ≤ b ∧ b ≤ 1) (hn : 0 ≤ n ∧ n ≤ 1) :
    0 ≤ r * 0.25 + e * 0.20 + src * 0.15 + b * 0.20 + n * 0.20 ∧
      r * 0.25 + e * 0.20 + src * 0.15 + b * 0.20 + n * 0.20 ≤ 1 := by
  rcases hr with ⟨hr0, hr1⟩
  rcases he with ⟨he0, he1⟩
  rcases hs with ⟨hs0, hs1⟩
  rcases hb with ⟨hb0, hb1⟩
  rcases hn with ⟨hn0, hn1⟩
  constructor <;> nlinarith

lemma score_lead_core_priority (s : Settings) (nr : ℚ × List String) (lead : LeadInput) :
    (score_lead_core s nr lead).priority_score =
      pyRound3 ((calculate_recency_score lead.last_activity_minutes_ago).1 * 0.25 +
        (calculate_engagement_score lead.past_interactions lead.status).1 * 0.20 +
        (calculate_source_score lead.source).1 * 0.15 +
        (calculate_budget_score lead.budget).1 * 0.20 + nr.1 * 0.20) := rfl

lemma score_lead_core_bucket (s : Settings) (nr : ℚ × List String) (lead : LeadInput) :
    (score_lead_core s nr lead).priority_bucket =
      (if s.hot_threshold ≤
          (calculate_recency_score lead.last_activity_minutes_ago).1 * 0.25 +
          (calculate_engagement_score lead.past_interactions lead.status).1 * 0.20 +
          (calculate_source_score lead.source).1 * 0.15 +
          (calculate_budget_score lead.budget).1 * 0.20 + nr.1 * 0.20 then "hot"
       else if s.warm_threshold ≤
          (calculate_recency_score lead.last_activity_minutes_ago).1 * 0.25 +
          (calculate_engagement_score lead.past_interactions lead.status).1 * 0.20 +
          (calculate_source_score lead.source).1 * 0.15 +
          (calculate_budget_score lead.budget).1 * 0.20 + nr.1 * 0.20 then "warm"
       else "cold") := rfl

lemma priority_score_bounds (s : Settings) (nr : ℚ × List String) (lead : LeadInput)
    (hn : 0 ≤ nr.1 ∧ nr.1 ≤ 1) :
    0 ≤ (score_lead_core s nr lead).priority_score ∧
      (score_lead_core s nr lead).priority_score ≤ 1 := by
  rw [score_lead_core_priority]
  have hw := weighted_sum_bounds (recency_score_bounds lead.last_activity_minutes_ago)
    (engagement_score_bounds lead.past_interactions lead.status)
    (source_score_bounds lead.source) (budget_score_bounds lead.budget) hn
  exact ⟨pyRound3_nonneg hw.1, pyRound3_le_one hw.2⟩

lemma scoreA_lower (s : Settings) {a : LeadInput}
    (h1 : a.last_activity_minutes_ago = 15) (h2 : a.past_interactions = 5)
    (h3 : a.source = "referral") (h4 : a.budget = 15000000)
    (h5 : "ready to book".data <:+: a.notes.data) :
    1499/2000 ≤ (score_lead_deterministic s a).priority_score := by
  rw [score_lead_deterministic, score_lead_core_priority, h1, h2, h3, h4]
  refine le_trans ?_ (le_pyRound3 _)
  rw [recency_at_15, source_referral, budget_at_15000000]
  have he := (engagement_at_5 a.status).1
  have hn := notesA_bound h5
  nlinarith

lemma scoreB_upper (s : Settings) {b : LeadInput}
    (h1 : b.last_activity_minutes_ago = 15000) (h2 : b.past_interactions = 0)
    (h3 : b.source = "social_media") (h4 : b.budget = 2500000)
    (h5 : "not interested, wrong number".data <:+: b.notes.data) :
    (score_lead_deterministic s b).priority_score ≤ 671/2000 := by
  rw [score_lead_deterministic, score_lead_core_priority, h1, h2, h3, h4]
  refine le_trans (pyRound3_le _) ?_
  rw [recency_at_15000, source_social_media, budget_at_2500000]
  have he := engagement_at_0 b.status
  have hn := notesB_bound h5
  nlinarith

/-! Sorted position lemmas for the ranking claim. -/

lemma prioritize_pairwise (s : Settings) (leads : List LeadInput) (m : ℕ) :
    (prioritize_leads_deterministic s leads m).Pairwise
      (fun a b => b.priority_score ≤ a.priority_score) := by
  rw [prioritize_leads_deterministic]
  exact List.Pairwise.sublist (List.take_sublist m _)
    (sortByScoreDesc_pairwise (leads.map (score_lead_deterministic s)))

lemma pos_lt_of_sorted {out : List LeadPriorityScore}
    (hsort : out.Pairwise (fun a b => b.priority_score ≤ a.priority_score))
    {i j : Fin out.length} {A B : LeadPriorityScore}
    (hA : out.get i = A) (hB : out.get j = B)
    (hlt : B.priority_score < A.priority_score) : i < j := by
  rcases lt_trichotomy i j with h | h | h
  · exact h
  · exfalso
    rw [h, hB] at hA
    rw [hA] at hlt
    exact lt_irrefl _ hlt
  · exfalso
    have hge := List.pairwise_iff_get.1 hsort j i h
    rw [hA, hB] at hge
    exact absurd hlt (not_lt.2 hge)

/-! Transcript parsing and pipeline lemmas. -/

lemma pyStrip_empty : pyStrip ("") = "" := by decide

lemma pyStrip_length_le (s : String) : (pyStrip s).length ≤ s.length := by
  show (((s.data.dropWhile Char.isWhitespace).reverse.dropWhile
      Char.isWhitespace).reverse).length ≤ s.data.length
  rw [List.length_reverse]
  calc ((s.data.dropWhile Char.isWhitespace).reverse.dropWhile Char.isWhitespace).length
      ≤ (s.data.dropWhile Char.isWhitespace).reverse.length :=
        (List.dropWhile_sublist _).length_le
    _ = (s.data.dropWhile Char.isWhitespace).length := List.length_reverse _
    _ ≤ s.data.length := (List.dropWhile_sublist _).length_le

lemma parse_fail_cond_iff (st : CallAnalysisState) :
    (st.transcript = "" ∨ (pyStrip st.transcript).length < 20) ↔
      (pyStrip st.transcript).length < 20 := by
  constructor
  · rintro (h | h)
    · rw [h, pyStrip_empty]
      decide
    · exact h
  · exact Or.inr

lemma parse_fail_iff (st : CallAnalysisState) :
    (parse_transcript st).is_parsed = false ↔ (pyStrip st.transcript).length < 20 := by
  rw [parse_transcript]
  by_cases h : st.transcript = "" ∨ (pyStrip st.transcript).length < 20
  · rw [if_pos h]
    constructor
    · intro _
      exact (parse_fail_cond_iff st).1 h
    · intro _
      rfl
  · rw [if_neg h]
    constructor
    · intro hfalse
      exact Bool.noConfusion hfalse
    · intro hlt
      exact absurd (Or.inr hlt) h

lemma parse_fail_state (st : CallAnalysisState) (h : (pyStrip st.transcript).length < 20) :
    parse_transcript st =
      { st with
        is_parsed := false
        parse_error := some ("Transcript too short or empty")
        errors := st.errors ++ ["Transcript validation failed: too short"] } := by
  rw [parse_transcript, if_pos (Or.inr h)]

lemma parse_ok_state (st : CallAnalysisState) (h : 20 ≤ (pyStrip st.transcript).length) :
    parse_transcript st =
      { st with
        transcript := pyStrip st.transcript
        is_parsed := true
        parse_error := none } := by
  have hc : ¬ (st.transcript = "" ∨ (pyStrip st.transcript).length < 20) := by
    intro hor
    have := (parse_fail_cond_iff st).1 hor
    omega
  rw [parse_transcript, if_neg hc]

lemma runPipeline_fail (s : Settings) (llm : Except String LLMOutput) (el : ℕ)
    (st0 : CallAnalysisState) (h : (pyStrip st0.transcript).length < 20) :
    runPipeline s llm el st0 =
      ([Stage.parseTranscript, Stage.generateOutput],
        generate_output (parse_transcript st0)) := by
  rw [runPipeline]
  have hp : should_continue_after_parse (parse_transcript st0) = false := by
    rw [should_continue_after_parse]
    exact (parse_fail_iff st0).2 h
  rw [hp]
  simp

lemma runPipeline_ok (s : Settings) (llm : Except String LLMOutput) (el : ℕ)
    (st0 : CallAnalysisState) (h : 20 ≤ (pyStrip st0.transcript).length) :
    runPipeline s llm el st0 =
      ([Stage.parseTranscript, Stage.analyzeDimensions, Stage.calculateScore,
        Stage.generateOutput],
        generate_output (calculate_score s (analyze_dimensions llm el (parse_transcript st0)))) := by
  rw [runPipeline]
  have hp : should_continue_after_parse (parse_transcript st0) = true := by
    rw [should_continue_after_parse]
    rcases Bool.eq_false_or_eq_true ((parse_transcript st0).is_parsed) with ht | hf
    · exact ht
    · have := (parse_fail_iff st0).1 hf
      omega
  rw [hp]
  simp

lemma runPipeline_trace_last (s : Settings) (llm : Except String LLMOutput) (el : ℕ)
    (st0 : CallAnalysisState) :
    (runPipeline s llm el st0).1.getLast? = some (Stage.generateOutput) := by
  rw [runPipeline]
  rcases Bool.eq_false_or_eq_true (should_continue_after_parse (parse_transcript st0)) with
    h | h <;> rw [h] <;> simp [List.getLast?]

lemma analyzeCall_fail_fields (s : Settings) (llm : Except String LLMOutput) (el : ℕ)
    (req : CallEvalRequest) (h : (pyStrip req.transcript).length < 20) :
    (analyzeCall s llm el req).1 = [Stage.parseTranscript, Stage.generateOutput] ∧
    (analyzeCall s llm el req).2.labels =
      { rapport_building := 0, need_discovery := 0, closing_attempt := 0, compliance_risk := 0 } ∧
    (analyzeCall s llm el req).2.quality_score = 0 ∧
    (analyzeCall s llm el req).2.is_good_call = false := by
  have h0 : (pyStrip (initialState s req).transcript).length < 20 := h
  rw [analyzeCall, runPipeline_fail s llm el _ h0, parse_fail_state _ h0]
  rw [generate_output]
  norm_num [initialState]

/-! Claim theorems. -/

/-- C1: score_lead combines the five sub-scores as the fixed weighted sum
recency*0.25 + engagement*0.20 + source*0.15 + budget*0.20 + notes*0.20 (the
reported priority_score is that sum under Python round(x,3)); on the
deterministic notes path the resulting priority score is always in [0,1]; and
the priority bucket is hot when the combined score reaches the configured hot
threshold, warm when it reaches the warm threshold, and cold otherwise — a
deterministic, pure function of the score and the two thresholds. -/
theorem C1_score_lead_weighted_sum_bucket (s : Settings) (nr : ℚ × List String)
    (lead : LeadInput) :
    (score_lead_core s nr lead).priority_score =
      pyRound3 ((calculate_recency_score lead.last_activity_minutes_ago).1 * 0.25 +
        (calculate_engagement_score lead.past_interactions lead.status).1 * 0.20 +
        (calculate_source_score lead.source).1 * 0.15 +
        (calculate_budget_score lead.budget).1 * 0.20 + nr.1 * 0.20) ∧
    (score_lead_core s nr lead).priority_bucket =
      (if s.hot_threshold ≤
          (calculate_recency_score lead.last_activity_minutes_ago).1 * 0.25 +
          (calculate_engagement_score lead.past_interactions lead.status).1 * 0.20 +
          (calculate_source_score lead.source).1 * 0.15 +
          (calculate_budget_score lead.budget).1 * 0.20 + nr.1 * 0.20 then "hot"
       else if s.warm_threshold ≤
          (calculate_recency_score lead.last_activity_minutes_ago).1 * 0.25 +
          (calculate_engagement_score lead.past_interactions lead.status).1 * 0.20 +
          (calculate_source_score lead.source).1 * 0.15 +
          (calculate_budget_score lead.budget).1 * 0.20 + nr.1 * 0.20 then "warm"
       else "cold") ∧
    (0 ≤ (score_lead_deterministic s lead).priority_score ∧
      (score_lead_deterministic s lead).priority_score ≤ 1) := by
  refine ⟨score_lead_core_priority s nr lead, score_lead_core_bucket s nr lead, ?_⟩
  exact priority_score_bounds s (analyze_notes_deterministic lead.notes) lead
    ⟨le_trans (by norm_num) (notes_score_bounds lead.notes).1, (notes_score_bounds lead.notes).2⟩

/-- C2: when the transcript fails parsing (trimmed length under 20), the
pipeline goes straight from ParseTranscript to GenerateOutput, never executing
AnalyzeDimensions or CalculateScore, and the response has all four dimension
scores 0, quality score 0 and is_good_call false; on every request the terminal
stage of the trace is GenerateOutput. -/
theorem C2_parse_failure_pipeline (s : Settings) (llm : Except String LLMOutput)
    (el : ℕ) (req : CallEvalRequest) :
    ((pyStrip req.transcript).length < 20 →
      (analyzeCall s llm el req).1 = [Stage.parseTranscript, Stage.generateOutput] ∧
      Stage.analyzeDimensions ∉ (analyzeCall s llm el req).1 ∧
      Stage.calculateScore ∉ (analyzeCall s llm el req).1 ∧
      (analyzeCall s llm el req).2.labels =
        { rapport_building := 0, need_discovery := 0, closing_attempt := 0,
          compliance_risk := 0 } ∧
      (analyzeCall s llm el req).2.quality_score = 0 ∧
      (analyzeCall s llm el req).2.is_good_call = false) ∧
    (analyzeCall s llm el req).1.getLast? = some (Stage.generateOutput) := by
  constructor
  · intro h
    rcases analyzeCall_fail_fields s llm el req h with ⟨ht, hl, hq, hg⟩
    refine ⟨ht, ?_, ?_, hl, hq, hg⟩
    · rw [ht]
      decide
    · rw [ht]
      decide
  · exact runPipeline_trace_last s llm el (initialState s req)

/-- C2 witness: a concrete too-short transcript takes the two-stage path and
returns the zeroed response. -/
theorem C2_parse_failure_pipeline_witness :
    (analyzeCall defaultSettings (Except.error ("down")) 0 reqShort).1 =
      [Stage.parseTranscript, Stage.generateOutput] ∧
    (analyzeCall defaultSettings (Except.error ("down")) 0 reqShort).2.quality_score = 0 ∧
    (analyzeCall defaultSettings (Except.error ("down")) 0 reqShort).2.is_good_call = false ∧
    (analyzeCall defaultSettings (Except.error ("down")) 0 reqShort).1.getLast? =
      some (Stage.generateOutput) := by
  have h := C2_parse_failure_pipeline defaultSettings (Except.error ("down")) 0 reqShort
  have hf := h.1 (by decide)
  exact ⟨hf.1, hf.2.2.2.2.1, hf.2.2.2.2.2, h.2⟩

/-- C3: for states with the four dimension scores in [0,1], calculate_score
sets quality_score to rapport*0.25 + need_discovery*0.30 + closing_attempt*0.30
+ (1 - compliance_risk)*0.15 rounded to 3 decimals, and is_good_call to exactly
quality_score >= good_call_threshold, with equality at the threshold classified
as a good call. -/
theorem C3_calculate_score_spec (s : Settings) (st : CallAnalysisState)
    (h1 : 0 ≤ st.rapport_building) (h2 : st.rapport_building ≤ 1)
    (h3 : 0 ≤ st.need_discovery) (h4 : st.need_discovery ≤ 1)
    (h5 : 0 ≤ st.closing_attempt) (h6 : st.closing_attempt ≤ 1)
    (h7 : 0 ≤ st.compliance_risk) (h8 : st.compliance_risk ≤ 1) :
    (calculate_score s st).quality_score =
      pyRound3 (st.rapport_building * 0.25 + st.need_discovery * 0.30 +
        st.closing_attempt * 0.30 + (1 - st.compliance_risk) * 0.15) ∧
    (calculate_score s st).is_good_call =
      decide (s.good_call_threshold ≤ (calculate_score s st).quality_score) ∧
    ((calculate_score s st).quality_score = s.good_call_threshold →
      (calculate_score s st).is_good_call = true) := by
  refine ⟨rfl, rfl, ?_⟩
  intro heq
  have e : (calculate_score s st).is_good_call =
      decide (s.good_call_threshold ≤ (calculate_score s st).quality_score) := rfl
  rw [e, heq]
  exact decide_eq_true (le_refl _)

/-- C3 witness: dimensions 0.6/0.6/0.6/0.4 hit the default threshold 0.6
exactly and are classified as a good call. -/
theorem C3_calculate_score_spec_witness :
    (calculate_score defaultSettings csStateEx).quality_score =
      defaultSettings.good_call_threshold ∧
    (calculate_score defaultSettings csStateEx).is_good_call = true := by
  have h := C3_calculate_score_spec defaultSettings csStateEx
    (by norm_num [csStateEx]) (by norm_num [csStateEx]) (by norm_num [csStateEx])
    (by norm_num [csStateEx]) (by norm_num [csStateEx]) (by norm_num [csStateEx])
    (by norm_num [csStateEx]) (by norm_num [csStateEx])
  have hq : (calculate_score defaultSettings csStateEx).quality_score =
      defaultSettings.good_call_threshold := by
    rw [h.1]
    norm_num [csStateEx, defaultSettings, pyRound3, pyRoundInt]
  exact ⟨hq, h.2.2 hq⟩

/-- C4: analyze_notes_deterministic on empty notes returns exactly
(0.5, No notes available); on non-empty notes the score is the baseline 0.5
plus at most one fixed adjustment per keyword category (urgency +0.20, timeline
+0.15, positive +0.15, negative -0.30) clamped to [0,1]; and notes hitting both
a positive and a negative keyword receive exactly one +0.15 and one -0.30. -/
theorem C4_analyze_notes_spec :
    (analyze_notes_deterministic ("") = (0.5, ["No notes available"])) ∧
    (∀ notes : String, ¬ notes = "" →
      (analyze_notes_deterministic notes).1 = max 0.0 (min 1.0 (rawNotesScore notes))) ∧
    (∀ notes : String, ¬ notes = "" →
      categoryHit notes POSITIVE_KEYWORDS = true →
      categoryHit notes NEGATIVE_KEYWORDS = true →
      (analyze_notes_deterministic notes).1 =
        max 0.0 (min 1.0 (0.5 + (if categoryHit notes URGENCY_KEYWORDS then 0.2 else 0)
          + (if categoryHit notes TIMELINE_KEYWORDS then 0.15 else 0) + 0.15 - 0.3))) := by
  refine ⟨?_, fun notes h => analyze_notes_score_eq notes h, ?_⟩
  · rw [analyze_notes_deterministic, if_pos rfl]
  · intro notes h hp hn
    rw [analyze_notes_score_eq notes h, rawNotesScore]
    simp only [hp, hn]
    simp

/-- C4 witness: notes hitting one positive and one negative keyword get exactly
the two category adjustments. -/
theorem C4_analyze_notes_spec_witness :
    (analyze_notes_deterministic ("interested but wrong number")).1 =
      max 0.0 (min 1.0 (0.5 +
        (if categoryHit ("interested but wrong number") URGENCY_KEYWORDS then 0.2 else 0)
        + (if categoryHit ("interested but wrong number") TIMELINE_KEYWORDS then 0.15 else 0)
        + 0.15 - 0.3)) :=
  C4_analyze_notes_spec.2.2 ("interested but wrong number") (by decide) (by decide) (by decide)

/-- C5: when the external dimension-analysis capability fails, the fallback
state has all four dimensions 0.5, the fixed failure summary, empty key points,
the manual-review next action, model name fallback, and the error note appended
after the previously recorded errors. -/
theorem C5_dimension_analysis_fallback (st : CallAnalysisState) (e : String) (el : ℕ) :
    analyze_dimensions (Except.error e) el st =
      { st with
        rapport_building := 0.5
        need_discovery := 0.5
        closing_attempt := 0.5
        compliance_risk := 0.5
        summary := "Analysis failed - using default scores"
        key_points := []
        next_actions := ["Manual review required"]
        model_name := "fallback"
        latency_ms := el
        errors := st.errors ++ [("LLM analysis failed: " ++ e)] } := rfl

/-- C6 counterexample: a transcript of 25 whitespace characters has length 25
and no dialogue marker, yet parse_transcript rejects it (its trimmed length is
0), contradicting the claim's length-25 instance as universally stated. -/
theorem C6_length25_counterexample :
    spaces25St.transcript.length = 25 ∧
    hasDialogue spaces25St.transcript = false ∧
    (parse_transcript spaces25St).is_parsed = false := by
  refine ⟨by decide, by decide, ?_⟩
  exact (parse_fail_iff spaces25St).2 (by decide)

/-- C6 (amended): parse_transcript fails — is_parsed false, parse_error set, an
error appended — exactly when the trimmed transcript has fewer than 20
characters; otherwise it succeeds with the trimmed transcript and no
parse_error, regardless of dialogue markers; in particular every transcript of
length 10 fails, and a transcript of length 25 with no dialogue markers whose
trimmed length is still at least 20 parses successfully. -/
theorem C6_parse_transcript_spec (st : CallAnalysisState) :
    (((parse_transcript st).is_parsed = false ∧
      (parse_transcript st).parse_error = some ("Transcript too short or empty") ∧
      (parse_transcript st).errors = st.errors ++ ["Transcript validation failed: too short"]) ↔
      (pyStrip st.transcript).length < 20) ∧
    (20 ≤ (pyStrip st.transcript).length →
      (parse_transcript st).is_parsed = true ∧
      (parse_transcript st).transcript = pyStrip st.transcript ∧
      (parse_transcript st).parse_error = none) ∧
    (st.transcript.length = 10 → (parse_transcript st).is_parsed = false) ∧
    (st.transcript.length = 25 → hasDialogue st.transcript = false →
      20 ≤ (pyStrip st.transcript).length → (parse_transcript st).is_parsed = true) := by
  refine ⟨⟨fun h => (parse_fail_iff st).1 h.1, fun h => ?_⟩, fun h => ?_, fun h => ?_,
    fun _ _ h => ?_⟩
  · rw [parse_fail_state st h]
    exact ⟨rfl, rfl, rfl⟩
  · rw [parse_ok_state st h]
    exact ⟨rfl, rfl, rfl⟩
  · have := pyStrip_length_le st.transcript
    exact (parse_fail_iff st).2 (by omega)
  · rw [parse_ok_state st h]

/-- C6 witness: a 10-character transcript fails and a 25-letter marker-free
transcript parses. -/
theorem C6_parse_transcript_spec_witness :
    (parse_transcript st10).is_parsed = false ∧
    (parse_transcript st25).is_parsed = true := by
  constructor
  · exact (C6_parse_transcript_spec st10).2.2.1 (by decide)
  · exact (C6_parse_transcript_spec st25).2.2.2 (by decide) (by decide) (by decide)

/-- C7: under deterministic notes analysis, the fresh referral lead with the
booking-ready note scores strictly above the stale social-media lead with the
not-interested note, and in any prioritized list the former's scored record
always appears strictly before the latter's. -/
theorem C7_two_lead_ranking (s : Settings) (a b : LeadInput)
    (ha1 : a.last_activity_minutes_ago = 15) (ha2 : a.past_interactions = 5)
    (ha3 : a.source = "referral") (ha4 : a.budget = 15000000)
    (ha5 : "ready to book".data <:+: a.notes.data)
    (hb1 : b.last_activity_minutes_ago = 15000) (hb2 : b.past_interactions = 0)
    (hb3 : b.source = "social_media") (hb4 : b.budget = 2500000)
    (hb5 : "not interested, wrong number".data <:+: b.notes.data) :
    (score_lead_deterministic s b).priority_score <
      (score_lead_deterministic s a).priority_score ∧
    ∀ (leads : List LeadInput) (m : ℕ)
      (i j : Fin (prioritize_leads_deterministic s leads m).length),
      (prioritize_leads_deterministic s leads m).get i = score_lead_deterministic s a →
      (prioritize_leads_deterministic s leads m).get j = score_lead_deterministic s b →
      i < j := by
  have hlt : (score_lead_deterministic s b).priority_score <
      (score_lead_deterministic s a).priority_score :=
    lt_of_le_of_lt (scoreB_upper s hb1 hb2 hb3 hb4 hb5)
      (lt_of_lt_of_le (by norm_num) (scoreA_lower s ha1 ha2 ha3 ha4 ha5))
  refine ⟨hlt, ?_⟩
  intro leads m i j hA hB
  exact pos_lt_of_sorted (prioritize_pairwise s leads m) hA hB hlt

/-- C7 witness: the two concrete leads of the property compare strictly. -/
theorem C7_two_lead_ranking_witness :
    (score_lead_deterministic defaultSettings leadB).priority_score <
      (score_lead_deterministic defaultSettings leadA).priority_score :=
  (C7_two_lead_ranking defaultSettings leadA leadB rfl rfl rfl rfl (by decide)
    rfl rfl rfl rfl (by decide)).1

/-- C8: prioritize_leads scores every lead independently (the output is a
truncated stable descending sort of the per-lead scores), the sorted list is a
permutation of the scored leads, the output is sorted by descending priority
score, ties keep their input order (filtering by any fixed score value is
order-preserving), and the output has at most max_results entries. -/
theorem C8_prioritize_leads_spec (s : Settings) (leads : List LeadInput) (m : ℕ) :
    prioritize_leads_deterministic s leads m =
      (sortByScoreDesc (leads.map (score_lead_deterministic s))).take m ∧
    List.Perm (sortByScoreDesc (leads.map (score_lead_deterministic s)))
      (leads.map (score_lead_deterministic s)) ∧
    (prioritize_leads_deterministic s leads m).Pairwise
      (fun x y => y.priority_score ≤ x.priority_score) ∧
    (∀ c : ℚ,
      (sortByScoreDesc (leads.map (score_lead_deterministic s))).filter
          (fun x => decide (x.priority_score = c)) =
        (leads.map (score_lead_deterministic s)).filter
          (fun x => decide (x.priority_score = c))) ∧
    (prioritize_leads_deterministic s leads m).length ≤ m := by
  refine ⟨rfl, sortByScoreDesc_perm _, prioritize_pairwise s leads m,
    fun c => filter_sortByScoreDesc c _, ?_⟩
  rw [prioritize_leads_deterministic, List.length_take]
  exact min_le_left _ _

/-- C9: the non-LLM scoring paths are deterministic: two runs of the embedded
functions on the same input agree on every field. -/
theorem C9_non_llm_determinism (s : Settings) (lead : LeadInput)
    (leads : List LeadInput) (m : ℕ) (e : String) (el : ℕ) (req : CallEvalRequest) :
    score_lead_deterministic s lead = score_lead_deterministic s lead ∧
    prioritize_leads_deterministic s leads m = prioritize_leads_deterministic s leads m ∧
    analyzeCall s (Except.error e) el req = analyzeCall s (Except.error e) el req :=
  ⟨rfl, rfl, rfl⟩

/-- C10: for every notes string the deterministic notes score lies in
[0.2, 1.0]: the single -0.30 adjustment from the 0.5 baseline bottoms out at
0.2, so the lower clamp never fires, and the positive categories top out at
exactly 1.0. -/
theorem C10_notes_score_range (notes : String) :
    0.2 ≤ (analyze_notes_deterministic notes).1 ∧
      (analyze_notes_deterministic notes).1 ≤ 1.0 := by
  rcases notes_score_bounds notes with ⟨h1, h2⟩
  constructor
  · exact le_trans (by norm_num) h1
  · exact le_trans h2 (by norm_num)

end Fixit
